import Mathlib

/-!
Verification of the unit-conversion subsystem of the gusnet repository
(`src/gusnet/units.py` together with the enumerations it uses from
`src/gusnet/elements.py`).

The Python code is shallowly embedded: each Python `Enum` becomes a Lean
inductive type, the `Converter` class becomes a structure whose cached
attributes (`traditional`, `flow_unit_factor`, `mass_unit_factor`) are fields
computed by the constructor embedding `Converter.init`, and every
`raise ValueError` is modelled by `Option` with `none` as the raised error.
Floating-point arithmetic is embedded as exact real arithmetic; the Python
expression `x ** 0.5` becomes `Real.sqrt x`.
-/

/-- Embedding of `FlowUnit` from `src/gusnet/elements.py` (lines 25-35). -/
inductive FlowUnit
  | LPS
  | LPM
  | MLD
  | CMH
  | CMD
  | CFS
  | GPM
  | MGD
  | IMGD
  | AFD
  deriving DecidableEq, Repr

/-- Embedding of `MassUnit` from `src/gusnet/elements.py` (lines 63-65). -/
inductive MassUnit
  | MG
  | UG
  deriving DecidableEq, Repr

/-- Embedding of `HeadlossFormula` from `src/gusnet/elements.py` (lines 77-80). -/
inductive HeadlossFormula
  | HAZEN_WILLIAMS
  | DARCY_WEISBACH
  | CHEZY_MANNING
  deriving DecidableEq, Repr

/-- Embedding of `WallReactionOrder` from `src/gusnet/elements.py` (lines 231-233). -/
inductive WallReactionOrder
  | ZERO
  | ONE
  deriving DecidableEq, Repr

/-- Embedding of the `Parameter` enum from `src/gusnet/elements.py`
(lines 262-285).  In the Python enum the members `LENGTH`, `ELEVATION`,
`HYDRAULIC_HEAD` and `TANK_DIAMETER` all carry the value `999`, so by
Python's `Enum` aliasing rules they are one single member whose canonical
name is `LENGTH`; the three later names are aliases.  The embedding
therefore has a single constructor `LENGTH` and the aliases are plain
definitions equal to it. -/
inductive Parameter
  | LENGTH
  | PRESSURE
  | CONCENTRATION
  | PIPE_DIAMETER
  | FLOW
  | VELOCITY
  | UNIT_HEADLOSS
  | POWER
  | VOLUME
  | EMITTER_COEFFICIENT
  | ROUGHNESS_COEFFICIENT
  | ENERGY
  | REACTION_RATE
  | BULK_REACTION_COEFFICIENT
  | WALL_REACTION_COEFFICIENT
  | SOURCE_MASS_INJECTION
  | WATER_AGE
  | UNITLESS
  | FRACTION
  | CURRENCY
  deriving DecidableEq, Repr

/-- Alias member: `Parameter.ELEVATION = 999` coincides with `LENGTH`. -/
def Parameter.ELEVATION : Parameter := Parameter.LENGTH

/-- Alias member: `Parameter.HYDRAULIC_HEAD = 999` coincides with `LENGTH`. -/
def Parameter.HYDRAULIC_HEAD : Parameter := Parameter.LENGTH

/-- Alias member: `Parameter.TANK_DIAMETER = 999` coincides with `LENGTH`. -/
def Parameter.TANK_DIAMETER : Parameter := Parameter.LENGTH

/-- Embedding of `_TRADITIONAL_FLOW_UNITS` from `src/gusnet/units.py`
(line 13): the set of US-customary flow units. -/
def _TRADITIONAL_FLOW_UNITS : List FlowUnit :=
  [FlowUnit.CFS, FlowUnit.GPM, FlowUnit.MGD, FlowUnit.IMGD, FlowUnit.AFD]

/-- Embedding of `Converter._flow_unit_factor` from `src/gusnet/units.py`
(lines 163-188).  The method only reads `self.flow_units`, so it is embedded
as a function of that field.  Every branch of the Python if-chain is covered
by a distinct enum member, hence the trailing `raise ValueError` is
unreachable and the function is total. -/
noncomputable def _flow_unit_factor (flow_units : FlowUnit) : ℝ :=
  match flow_units with
  | FlowUnit.CFS => 0.0283168466
  | FlowUnit.GPM => 0.003785411784 / 60.0
  | FlowUnit.MGD => 1e6 * 0.003785411784 / 86400.0
  | FlowUnit.IMGD => 1e6 * 0.00454609 / 86400.0
  | FlowUnit.AFD => 1233.48184 / 86400.0
  | FlowUnit.LPS => 0.001
  | FlowUnit.LPM => 0.001 / 60.0
  | FlowUnit.MLD => 1e6 * 0.001 / 86400.0
  | FlowUnit.CMH => 1.0 / 3600.0
  | FlowUnit.CMD => 1.0 / 86400.0

/-- Embedding of `Converter._mass_unit_factor` from `src/gusnet/units.py`
(lines 190-199).  The method reads `self.mass_unit`, which may be `None`;
in that case the trailing `raise ValueError(mass_units)` fires, embedded
here as `none`. -/
noncomputable def _mass_unit_factor (mass_unit : Option MassUnit) : Option ℝ :=
  match mass_unit with
  | some MassUnit.MG => some 1e-6
  | some MassUnit.UG => some 1e-9
  | none => none

/-- Embedding of the `Converter` class of `src/gusnet/units.py`
(lines 16-38): the four configuration attributes stored by `__init__`
together with the three values it derives and caches
(`traditional`, `flow_unit_factor`, `mass_unit_factor`). -/
structure Converter where
  flow_units : FlowUnit
  headloss_formula : HeadlossFormula
  mass_unit : Option MassUnit
  wall_reaction_order : Option WallReactionOrder
  traditional : Bool
  flow_unit_factor : ℝ
  mass_unit_factor : ℝ

/-- Embedding of `Converter.__init__` (`src/gusnet/units.py` lines 24-38).
The Python defaults are `mass_unit = MassUnit.MG` and
`wall_reaction_order = WallReactionOrder.ONE`; callers here always pass the
arguments explicitly.  `__init__` computes
`self.traditional = self.flow_units in _TRADITIONAL_FLOW_UNITS`,
`self.flow_unit_factor = self._flow_unit_factor()` and
`self.mass_unit_factor = self._mass_unit_factor()`; the last call raises
`ValueError` when `mass_unit` is `None`, so construction itself fails then,
embedded as `none`. -/
noncomputable def Converter.init (flow_units : FlowUnit) (headloss_formula : HeadlossFormula)
    (mass_unit : Option MassUnit) (wall_reaction_order : Option WallReactionOrder) :
    Option Converter :=
  match _mass_unit_factor mass_unit with
  | some mf =>
    some ⟨flow_units, headloss_formula, mass_unit, wall_reaction_order,
      decide (flow_units ∈ _TRADITIONAL_FLOW_UNITS), _flow_unit_factor flow_units, mf⟩
  | none => none

/-- Embedding of `Converter._factor` (`src/gusnet/units.py` lines 60-161).
The Python method is a chain of `elif parameter is ...` tests over the
closed `Parameter` enum; since distinct constructors are disjoint the chain
is a match.  The enum-alias comment on line 64 (`TANK_DIAMETER`,
`ELEVATION`, `HYDRAULIC_HEAD`, `LENGTH`) is the single member `LENGTH` here;
the Python branches for `UNITLESS` (line 74) and for
`[FRACTION, CURRENCY]` (line 158) both return `1.0`.  The two
`WALL_REACTION_COEFFICIENT` branches additionally test
`self.wall_reaction_order`; when that attribute is `None` neither matches
and control falls to the trailing `raise ValueError(parameter)`, embedded
as `none`. -/
noncomputable def Converter._factor (c : Converter) (parameter : Parameter) : Option ℝ :=
  match parameter with
  | Parameter.LENGTH =>
    if c.traditional then some 0.3048 else some 1.0
  | Parameter.FLOW => some c.flow_unit_factor
  | Parameter.UNITLESS => some 1.0
  | Parameter.EMITTER_COEFFICIENT =>
    if c.traditional then some (c.flow_unit_factor * Real.sqrt (0.4333 / 0.3048))
    else some c.flow_unit_factor
  | Parameter.PIPE_DIAMETER =>
    if c.traditional then some 0.0254 else some 0.001
  | Parameter.ROUGHNESS_COEFFICIENT =>
    if c.headloss_formula = HeadlossFormula.DARCY_WEISBACH then
      if c.traditional then some (0.001 * 0.3048) else some 0.001
    else some 1.0
  | Parameter.UNIT_HEADLOSS => some 0.001
  | Parameter.VELOCITY =>
    if c.traditional then some 0.3048 else some 1.0
  | Parameter.ENERGY => some 3600000.0
  | Parameter.POWER =>
    if c.traditional then some 745.699872 else some 1000.0
  | Parameter.PRESSURE =>
    if c.traditional then some (0.3048 / 0.4333) else some 1.0
  | Parameter.VOLUME =>
    if c.traditional then some (0.3048 ^ (3 : ℕ)) else some 1.0
  | Parameter.CONCENTRATION => some (c.mass_unit_factor / 0.001)
  | Parameter.REACTION_RATE => some ((c.mass_unit_factor / 0.001) / (24 * 3600))
  | Parameter.SOURCE_MASS_INJECTION => some (c.mass_unit_factor / 60.0)
  | Parameter.BULK_REACTION_COEFFICIENT => some (1 / 86400.0)
  | Parameter.WALL_REACTION_COEFFICIENT =>
    match c.wall_reaction_order with
    | some WallReactionOrder.ZERO =>
      if c.traditional then some (c.mass_unit_factor * 0.092903 / 86400.0)
      else some (c.mass_unit_factor / 86400.0)
    | some WallReactionOrder.ONE =>
      if c.traditional then some (0.3048 / 86400.0)
      else some (1.0 / 86400.0)
    | none => none
  | Parameter.WATER_AGE => some 3600.0
  | Parameter.FRACTION => some 1.0
  | Parameter.CURRENCY => some 1.0

/-- Embedding of `Converter.to_si` (`src/gusnet/units.py` lines 44-50):
multiplies the value by the factor; a `ValueError` from `_factor`
propagates, embedded as `none`. -/
noncomputable def Converter.to_si (c : Converter) (value : ℝ) (parameter : Parameter) :
    Option ℝ :=
  (c._factor parameter).map (fun factor => value * factor)

/-- Embedding of `Converter.from_si` (`src/gusnet/units.py` lines 52-58):
divides the value by the same factor. -/
noncomputable def Converter.from_si (c : Converter) (value : ℝ) (parameter : Parameter) :
    Option ℝ :=
  (c._factor parameter).map (fun factor => value / factor)

/-- Modelled from the spec: the translation function `tr` comes from
`gusnet/i18n.py`, which is not among the provided source files; the spec
treats all localization/display-string plumbing as out of scope and quotes
the unit labels literally (pressure → "psi" if traditional else "m",
pipe diameter → "in" vs "mm"), so `tr` is the identity on strings. -/
def tr (s : String) : String := s

/-- Embedding of `SpecificUnitNames.flow_unit_name`
(`src/gusnet/units.py` lines 257-282).  Every `FlowUnit` member is covered,
so the trailing `raise ValueError` is unreachable. -/
def SpecificUnitNames.flow_unit_name (c : Converter) : String :=
  match c.flow_units with
  | FlowUnit.LPS => tr ("L/s")
  | FlowUnit.LPM => tr ("L/min")
  | FlowUnit.MLD => tr ("ML/day")
  | FlowUnit.CMH => tr ("m³/hour")
  | FlowUnit.CMD => tr ("m³/day")
  | FlowUnit.CFS => tr ("ft³/s")
  | FlowUnit.GPM => tr ("gal/min")
  | FlowUnit.MGD => tr ("MG/day")
  | FlowUnit.IMGD => tr ("imp gal/day")
  | FlowUnit.AFD => tr ("Acre-ft/day")

/-- Embedding of `SpecificUnitNames.mass_unit_name`
(`src/gusnet/units.py` lines 284-290); raises (`none`) when `mass_unit`
is `None`. -/
def SpecificUnitNames.mass_unit_name (c : Converter) : Option String :=
  match c.mass_unit with
  | some MassUnit.MG => some (tr ("mg"))
  | some MassUnit.UG => some (tr ("ug"))
  | none => none

/-- Embedding of `SpecificUnitNames.get` (`src/gusnet/units.py`
lines 292-395).  The Python method returns directly from the branches up to
`VOLUME`; after them it evaluates `mass = self.mass_unit_name()`
unconditionally (line 360) before testing the remaining parameters, so for
those parameters a `None` mass unit raises first — embedded with `bind`.
Python's format-string calls substitute the flow or mass unit name into
the label, embedded as string concatenation (`tr` being the identity).
The two `WALL_REACTION_COEFFICIENT` branches compare
`self.wall_reaction_order == ...`; with `None` neither matches and the
trailing `raise ValueError(parameter)` fires (`none`). -/
def SpecificUnitNames.get (c : Converter) (parameter : Parameter) : Option String :=
  match parameter with
  | Parameter.FLOW => some (SpecificUnitNames.flow_unit_name c)
  | Parameter.EMITTER_COEFFICIENT =>
    if c.traditional then some (SpecificUnitNames.flow_unit_name c ++ "/√psi")
    else some (SpecificUnitNames.flow_unit_name c ++ "/√m")
  | Parameter.PIPE_DIAMETER =>
    if c.traditional then some (tr ("in")) else some (tr ("mm"))
  | Parameter.ROUGHNESS_COEFFICIENT =>
    if c.headloss_formula = HeadlossFormula.DARCY_WEISBACH then
      if c.traditional then some (tr ("10⁻³ ft")) else some (tr ("mm"))
    else some (tr ("unitless"))
  | Parameter.LENGTH =>
    if c.traditional then some (tr ("ft")) else some (tr ("m"))
  | Parameter.UNIT_HEADLOSS =>
    if c.traditional then some (tr ("ft/1000 ft  ")) else some (tr ("m/1000 m"))
  | Parameter.VELOCITY =>
    if c.traditional then some (tr ("ft/s")) else some (tr ("m/s"))
  | Parameter.ENERGY => some (tr ("kWhr"))
  | Parameter.POWER =>
    if c.traditional then some (tr ("hp")) else some (tr ("kW"))
  | Parameter.PRESSURE =>
    if c.traditional then some (tr ("psi")) else some (tr ("m"))
  | Parameter.VOLUME =>
    if c.traditional then some (tr ("ft³")) else some (tr ("m³"))
  | Parameter.CONCENTRATION =>
    (SpecificUnitNames.mass_unit_name c).bind (fun mass => some (mass ++ "/L"))
  | Parameter.REACTION_RATE =>
    (SpecificUnitNames.mass_unit_name c).bind (fun mass => some (mass ++ "/L/day"))
  | Parameter.SOURCE_MASS_INJECTION =>
    (SpecificUnitNames.mass_unit_name c).bind (fun mass => some (mass ++ "/min"))
  | Parameter.BULK_REACTION_COEFFICIENT =>
    (SpecificUnitNames.mass_unit_name c).bind (fun _ => some ("  "))
  | Parameter.WALL_REACTION_COEFFICIENT =>
    (SpecificUnitNames.mass_unit_name c).bind (fun mass =>
      match c.wall_reaction_order with
      | some WallReactionOrder.ZERO =>
        if c.traditional then some (mass ++ "/ft²/day") else some (mass ++ "/m²/day")
      | some WallReactionOrder.ONE =>
        if c.traditional then some (tr ("ft/day")) else some (tr ("m/day"))
      | none => none)
  | Parameter.WATER_AGE =>
    (SpecificUnitNames.mass_unit_name c).bind (fun _ => some (tr ("hours")))
  | Parameter.UNITLESS =>
    (SpecificUnitNames.mass_unit_name c).bind (fun _ => some (tr ("unitless")))
  | Parameter.FRACTION =>
    (SpecificUnitNames.mass_unit_name c).bind (fun _ => some (tr ("fraction")))
  | Parameter.CURRENCY =>
    (SpecificUnitNames.mass_unit_name c).bind (fun _ => some (tr ("currency")))

/-- Every flow-unit factor in the table of `_flow_unit_factor` is strictly
positive. -/
lemma _flow_unit_factor_pos (fu : FlowUnit) : 0 < _flow_unit_factor fu := by
  cases fu <;> norm_num [_flow_unit_factor]

/-- Successful construction: for enumeration-valued mass units,
`Converter.init` returns exactly the converter whose cached fields are the
derived values, and both cached factors are strictly positive. -/
lemma init_enum (fu : FlowUnit) (hf : HeadlossFormula) (mu : MassUnit)
    (wo : Option WallReactionOrder) :
    ∃ c : Converter, Converter.init fu hf (some mu) wo = some c ∧
      c.flow_units = fu ∧ c.headloss_formula = hf ∧ c.mass_unit = some mu ∧
      c.wall_reaction_order = wo ∧
      c.traditional = decide (fu ∈ _TRADITIONAL_FLOW_UNITS) ∧
      c.flow_unit_factor = _flow_unit_factor fu ∧
      0 < c.flow_unit_factor ∧ 0 < c.mass_unit_factor := by
  cases mu <;>
    exact ⟨_, rfl, rfl, rfl, rfl, rfl, rfl, rfl, _flow_unit_factor_pos fu, by norm_num⟩

set_option maxHeartbeats 2000000 in
/-- On any converter with positive cached factors and an enumeration-valued
wall reaction order, `_factor` returns exactly one value for every
parameter, and that value is strictly positive. -/
lemma _factor_isSome_pos (c : Converter) (h1 : 0 < c.flow_unit_factor)
    (h2 : 0 < c.mass_unit_factor) (w : WallReactionOrder)
    (hw : c.wall_reaction_order = some w) (p : Parameter) :
    ∃ f : ℝ, c._factor p = some f ∧ 0 < f := by
  obtain ⟨fu, hf, mu, wo, tr, ff, mf⟩ := c
  dsimp only at h1 h2 hw
  subst hw
  cases p <;> cases tr <;>
    first
      | exact ⟨_, rfl, h1⟩
      | exact ⟨_, rfl, mul_pos h1 (Real.sqrt_pos.mpr (by norm_num))⟩
      | exact ⟨_, rfl, div_pos h2 (by norm_num)⟩
      | exact ⟨_, rfl, div_pos (div_pos h2 (by norm_num)) (by norm_num)⟩
      | exact ⟨_, rfl, div_pos (mul_pos h2 (by norm_num)) (by norm_num)⟩
      | (refine ⟨_, rfl, ?_⟩; norm_num)
      | (cases hf <;> (refine ⟨_, rfl, ?_⟩; norm_num))
      | (cases w <;>
          first
            | exact ⟨_, rfl, div_pos h2 (by norm_num)⟩
            | exact ⟨_, rfl, div_pos (mul_pos h2 (by norm_num)) (by norm_num)⟩
            | (refine ⟨_, rfl, ?_⟩; norm_num))

/-- C1: for every `Parameter` p, every `Converter` built from
enumeration members (flow unit, headloss formula, mass unit, wall reaction
order), and every value v, `from_si (to_si v p) p = v`: the same factor
`_factor p` is multiplied in and divided out, exactly over the
exact-arithmetic embedding. -/
theorem C1_round_trip (fu : FlowUnit) (hf : HeadlossFormula) (mu : MassUnit)
    (wo : WallReactionOrder) (p : Parameter) (v : ℝ) :
    (Converter.init fu hf (some mu) (some wo)).bind
      (fun c => (c.to_si v p).bind (fun w => c.from_si w p)) = some v := by
  obtain ⟨c, hc, -, -, -, hwall, -, -, hffpos, hmfpos⟩ := init_enum fu hf mu (some wo)
  obtain ⟨f, hfac, hpos⟩ := _factor_isSome_pos c hffpos hmfpos wo hwall p
  rw [hc]
  simp only [Option.some_bind, Converter.to_si, Converter.from_si, hfac, Option.map_some']
  rw [Option.some.injEq, mul_div_cancel_right₀ v hpos.ne']

/-- C2: for every Converter whose four configuration fields are members of
their enumerations and every member p of `Parameter`, `_factor` returns
exactly one value, that value is strictly positive, and the trailing
`raise ValueError` branch is unreachable (the result is `some`, never
`none`). -/
theorem C2_factor_total_pos (fu : FlowUnit) (hf : HeadlossFormula) (mu : MassUnit)
    (wo : WallReactionOrder) (p : Parameter) :
    ∃ f : ℝ, (Converter.init fu hf (some mu) (some wo)).bind
      (fun c => c._factor p) = some f ∧ 0 < f := by
  obtain ⟨c, hc, -, -, -, hwall, -, -, hffpos, hmfpos⟩ := init_enum fu hf mu (some wo)
  obtain ⟨f, hfac, hpos⟩ := _factor_isSome_pos c hffpos hmfpos wo hwall p
  rw [hc]
  exact ⟨f, by simpa [Option.some_bind] using hfac, hpos⟩

/-- C3: for every configuration, the `ROUGHNESS_COEFFICIENT` factor is 1.0
under Hazen-Williams and Chezy-Manning regardless of flow-unit family, and
under Darcy-Weisbach it is 0.001 * 0.3048 for traditional flow units and
0.001 for metric ones. -/
theorem C3_roughness_conditionality (fu : FlowUnit) (hf : HeadlossFormula) (mu : MassUnit)
    (wo : WallReactionOrder) :
    (Converter.init fu hf (some mu) (some wo)).bind
      (fun c => c._factor Parameter.ROUGHNESS_COEFFICIENT) =
    some (if hf = HeadlossFormula.DARCY_WEISBACH then
            (if fu ∈ _TRADITIONAL_FLOW_UNITS then 0.001 * 0.3048 else 0.001)
          else 1.0) := by
  cases mu <;> cases hf <;> cases fu <;> rfl

/-- C4: for every fixed flow unit and mass unit, the
`WALL_REACTION_COEFFICIENT` factor under order ZERO is never equal to the
factor under order ONE. -/
theorem C4_wall_orders_distinct (fu : FlowUnit) (hf : HeadlossFormula) (mu : MassUnit) :
    (Converter.init fu hf (some mu) (some WallReactionOrder.ZERO)).bind
      (fun c => c._factor Parameter.WALL_REACTION_COEFFICIENT) ≠
    (Converter.init fu hf (some mu) (some WallReactionOrder.ONE)).bind
      (fun c => c._factor Parameter.WALL_REACTION_COEFFICIENT) := by
  cases mu <;> cases fu <;>
    (simp +decide only [Converter.init, _mass_unit_factor, Converter._factor,
      _TRADITIONAL_FLOW_UNITS, ne_eq, Option.some.injEq];
     norm_num)

/-- C5: for the four Parameter kinds LENGTH, ELEVATION, HYDRAULIC_HEAD and
TANK_DIAMETER — which in the code are aliases of the single enum member
LENGTH — the factor is 0.3048 for every traditional flow unit and 1.0 for
every metric one. -/
theorem C5_length_kinds (fu : FlowUnit) (hf : HeadlossFormula) (mu : MassUnit)
    (wo : WallReactionOrder) :
    ((Converter.init fu hf (some mu) (some wo)).bind
        (fun c => c._factor Parameter.LENGTH) =
      some (if fu ∈ _TRADITIONAL_FLOW_UNITS then 0.3048 else 1.0)) ∧
    Parameter.ELEVATION = Parameter.LENGTH ∧
    Parameter.HYDRAULIC_HEAD = Parameter.LENGTH ∧
    Parameter.TANK_DIAMETER = Parameter.LENGTH := by
  refine ⟨?_, rfl, rfl, rfl⟩
  cases mu <;> cases fu <;> rfl

/-- C6: for every configuration, the factors for ENERGY, WATER_AGE and
BULK_REACTION_COEFFICIENT are the constants 3600000.0, 3600.0 and 1/86400,
independent of every configuration field. -/
theorem C6_fixed_factors (fu : FlowUnit) (hf : HeadlossFormula) (mu : MassUnit)
    (wo : WallReactionOrder) :
    ((Converter.init fu hf (some mu) (some wo)).bind
        (fun c => c._factor Parameter.ENERGY) = some 3600000.0) ∧
    ((Converter.init fu hf (some mu) (some wo)).bind
        (fun c => c._factor Parameter.WATER_AGE) = some 3600.0) ∧
    ((Converter.init fu hf (some mu) (some wo)).bind
        (fun c => c._factor Parameter.BULK_REACTION_COEFFICIENT) = some (1 / 86400.0)) := by
  cases mu <;> exact ⟨rfl, rfl, rfl⟩

/-- C7: converters built with CFS, GPM, MGD, IMGD, AFD have
`traditional = true`; converters built with LPS, LPM, MLD, CMH, CMD have
`traditional = false`. -/
theorem C7_family_membership (hf : HeadlossFormula) (mu : MassUnit) (wo : WallReactionOrder) :
    ((Converter.init FlowUnit.CFS hf (some mu) (some wo)).map Converter.traditional
        = some true) ∧
    ((Converter.init FlowUnit.GPM hf (some mu) (some wo)).map Converter.traditional
        = some true) ∧
    ((Converter.init FlowUnit.MGD hf (some mu) (some wo)).map Converter.traditional
        = some true) ∧
    ((Converter.init FlowUnit.IMGD hf (some mu) (some wo)).map Converter.traditional
        = some true) ∧
    ((Converter.init FlowUnit.AFD hf (some mu) (some wo)).map Converter.traditional
        = some true) ∧
    ((Converter.init FlowUnit.LPS hf (some mu) (some wo)).map Converter.traditional
        = some false) ∧
    ((Converter.init FlowUnit.LPM hf (some mu) (some wo)).map Converter.traditional
        = some false) ∧
    ((Converter.init FlowUnit.MLD hf (some mu) (some wo)).map Converter.traditional
        = some false) ∧
    ((Converter.init FlowUnit.CMH hf (some mu) (some wo)).map Converter.traditional
        = some false) ∧
    ((Converter.init FlowUnit.CMD hf (some mu) (some wo)).map Converter.traditional
        = some false) := by
  cases mu <;> exact ⟨rfl, rfl, rfl, rfl, rfl, rfl, rfl, rfl, rfl, rfl⟩

/-- C8: an LPS / milligram / order-one converter maps 10.0 FLOW to 0.01 in
SI and 0.01 back to 10.0; a CFS converter maps 1.0 PIPE_DIAMETER to 0.0254;
an LPS converter maps 1.0 PIPE_DIAMETER to 0.001 — for any headloss
formula (and, for pipe diameter, any mass unit and wall order). -/
theorem C8_concrete_scenarios (hf₁ hf₂ hf₃ : HeadlossFormula) (mu₂ mu₃ : MassUnit)
    (wo₂ wo₃ : WallReactionOrder) :
    ((Converter.init FlowUnit.LPS hf₁ (some MassUnit.MG) (some WallReactionOrder.ONE)).bind
        (fun c => c.to_si 10.0 Parameter.FLOW) = some 0.01) ∧
    ((Converter.init FlowUnit.LPS hf₁ (some MassUnit.MG) (some WallReactionOrder.ONE)).bind
        (fun c => c.from_si 0.01 Parameter.FLOW) = some 10.0) ∧
    ((Converter.init FlowUnit.CFS hf₂ (some mu₂) (some wo₂)).bind
        (fun c => c.to_si 1.0 Parameter.PIPE_DIAMETER) = some 0.0254) ∧
    ((Converter.init FlowUnit.LPS hf₃ (some mu₃) (some wo₃)).bind
        (fun c => c.to_si 1.0 Parameter.PIPE_DIAMETER) = some 0.001) := by
  cases mu₂ <;> cases mu₃ <;> refine ⟨?_, ?_, ?_, ?_⟩ <;>
    (simp +decide only [Converter.init, _mass_unit_factor, Converter.to_si,
       Converter.from_si, Converter._factor, _flow_unit_factor,
       _TRADITIONAL_FLOW_UNITS, Option.some_bind, Option.map_some', Option.some.injEq];
     norm_num)

/-- C9: the label resolver branches on exactly the condition the factor
table uses for the setting-dependent kinds: the PRESSURE label is "psi"
precisely on the traditional family (factor 0.3048/0.4333) and "m"
precisely on the metric family (factor 1.0); the PIPE_DIAMETER label is
"in" precisely on the traditional family (factor 0.0254) and "mm"
precisely on the metric family (factor 0.001). -/
theorem C9_labels_lockstep (fu : FlowUnit) (hf : HeadlossFormula) (mu : MassUnit)
    (wo : WallReactionOrder) :
    (((Converter.init fu hf (some mu) (some wo)).bind
        (fun c => SpecificUnitNames.get c Parameter.PRESSURE) = some ("psi")) ↔
      fu ∈ _TRADITIONAL_FLOW_UNITS) ∧
    (((Converter.init fu hf (some mu) (some wo)).bind
        (fun c => SpecificUnitNames.get c Parameter.PRESSURE) = some ("m")) ↔
      fu ∉ _TRADITIONAL_FLOW_UNITS) ∧
    (((Converter.init fu hf (some mu) (some wo)).bind
        (fun c => c._factor Parameter.PRESSURE) = some (0.3048 / 0.4333)) ↔
      fu ∈ _TRADITIONAL_FLOW_UNITS) ∧
    (((Converter.init fu hf (some mu) (some wo)).bind
        (fun c => c._factor Parameter.PRESSURE) = some 1.0) ↔
      fu ∉ _TRADITIONAL_FLOW_UNITS) ∧
    (((Converter.init fu hf (some mu) (some wo)).bind
        (fun c => SpecificUnitNames.get c Parameter.PIPE_DIAMETER) = some ("in")) ↔
      fu ∈ _TRADITIONAL_FLOW_UNITS) ∧
    (((Converter.init fu hf (some mu) (some wo)).bind
        (fun c => SpecificUnitNames.get c Parameter.PIPE_DIAMETER) = some ("mm")) ↔
      fu ∉ _TRADITIONAL_FLOW_UNITS) ∧
    (((Converter.init fu hf (some mu) (some wo)).bind
        (fun c => c._factor Parameter.PIPE_DIAMETER) = some 0.0254) ↔
      fu ∈ _TRADITIONAL_FLOW_UNITS) ∧
    (((Converter.init fu hf (some mu) (some wo)).bind
        (fun c => c._factor Parameter.PIPE_DIAMETER) = some 0.001) ↔
      fu ∉ _TRADITIONAL_FLOW_UNITS) := by
  cases fu <;> cases mu <;> refine ⟨?_, ?_, ?_, ?_, ?_, ?_, ?_, ?_⟩ <;>
    (simp +decide only [Converter.init, _mass_unit_factor, Converter._factor,
       SpecificUnitNames.get, tr, _TRADITIONAL_FLOW_UNITS,
       Option.some_bind, Option.some.injEq];
     try norm_num)

/-- For every parameter other than WALL_REACTION_COEFFICIENT, `_factor`
returns a value on any converter whatsoever (in particular whatever its
`wall_reaction_order` field holds). -/
lemma _factor_some_of_ne (c : Converter) (p : Parameter)
    (hp : p ≠ Parameter.WALL_REACTION_COEFFICIENT) : ∃ f : ℝ, c._factor p = some f := by
  obtain ⟨fu, hfm, mu, wo, tr, ff, mf⟩ := c
  cases p <;>
    first
      | exact absurd rfl hp
      | exact ⟨_, rfl⟩
      | (dsimp only [Converter._factor]; split <;> (try split) <;> exact ⟨_, rfl⟩)

/-- On any converter, `to_si` and `from_si` return a value for every
parameter other than WALL_REACTION_COEFFICIENT. -/
lemma to_si_from_si_isSome (c : Converter) (v : ℝ) (p : Parameter)
    (hp : p ≠ Parameter.WALL_REACTION_COEFFICIENT) :
    (c.to_si v p).isSome = true ∧ (c.from_si v p).isSome = true := by
  obtain ⟨f, hfac⟩ := _factor_some_of_ne c p hp
  constructor <;> simp [Converter.to_si, Converter.from_si, hfac]

/-- C10: the two None-accepting constructor arguments fail asymmetrically.
A `None` mass unit makes construction itself raise (`Converter.init`
returns `none`), while a `None` wall reaction order constructs
successfully and the resulting converter's `to_si`/`from_si` raise exactly
on WALL_REACTION_COEFFICIENT and convert every other parameter normally. -/
theorem C10_none_asymmetry (fu : FlowUnit) (hf : HeadlossFormula)
    (wo : Option WallReactionOrder) (mu : MassUnit) (v : ℝ) :
    (Converter.init fu hf none wo = none) ∧
    (∃ c : Converter, Converter.init fu hf (some mu) none = some c ∧
      c.to_si v Parameter.WALL_REACTION_COEFFICIENT = none ∧
      c.from_si v Parameter.WALL_REACTION_COEFFICIENT = none ∧
      ∀ p : Parameter,
        ((c.to_si v p).isSome = decide (p ≠ Parameter.WALL_REACTION_COEFFICIENT) ∧
         (c.from_si v p).isSome = decide (p ≠ Parameter.WALL_REACTION_COEFFICIENT))) := by
  refine ⟨rfl, ?_⟩
  cases mu <;>
    · refine ⟨_, rfl, rfl, rfl, fun p => ?_⟩
      by_cases hp : p = Parameter.WALL_REACTION_COEFFICIENT
      · subst hp; exact ⟨rfl, rfl⟩
      · rw [decide_eq_true hp]
        exact to_si_from_si_isSome _ v p hp
